import Mathlib

/-!
Shallow embedding of the authentication / multi-factor-verification core:
the login orchestrator, the four second-factor verifiers, the attempt
ledger and lockout policy, the device-session registry, and the OTP store.

Database rows are modelled as Lean structures, the database as lists of
rows, and each service or model function as an explicit state transformer
on the database.  External primitives (bcrypt compare, speakeasy TOTP
check) are passed in as boolean-valued function parameters.  Timestamps
are natural numbers (seconds).
-/

/-- A row of the `user` table, joined with the role name as in
`userModel.getByEmail` / `getById`. -/
structure UserRow where
  id : Nat
  email : String
  password : String
  role : String
  accountName : String
  businessId : Option Nat
  isActive : Bool
  isDeleted : Bool
  lastLoggedIn : Option Nat
deriving Repr, DecidableEq

/-- A row of the `business` table (only the fields the middleware reads). -/
structure BusinessRow where
  id : Nat
  isActive : Bool
deriving Repr, DecidableEq

/-- A row of the `user_roles` table joined with the role name, as read by
`userRolesModel.getUserRoles`. -/
structure UserRoleRow where
  userId : Nat
  roleName : String
  isActive : Bool
deriving Repr, DecidableEq

/-- A row of `user_2fa_settings`. -/
structure TwoFASettings where
  userId : Nat
  authenticatorEnabled : Bool
  passkeyEnabled : Bool
  oneTimeCodeEnabled : Bool
  securityQuestionEnabled : Bool
  is2faEnabled : Bool
deriving Repr, DecidableEq

/-- A row of `user_authenticator`. -/
structure AuthenticatorRow where
  userId : Nat
  secret : String
  isVerified : Bool
deriving Repr, DecidableEq

/-- A row of `user_security_question`. -/
structure SecurityQuestionRow where
  id : Nat
  userId : Nat
  question : String
  answerHash : String
deriving Repr, DecidableEq

/-- A row of `user_2fa_backup_code`. -/
structure BackupCodeRow where
  id : Nat
  userId : Nat
  codeHash : String
  isUsed : Bool
deriving Repr, DecidableEq

/-- A row of the append-only `user_2fa_attempt` ledger. -/
structure AttemptRow where
  userId : Nat
  method : String
  success : Bool
  ipAddress : Option String
  createdAt : Nat
deriving Repr, DecidableEq

/-- A row of the `otp` table.  `insertOtp` only supplies `email` and
`otp`; `expires_at` comes from the table default and there is no purpose
column. -/
structure OtpRow where
  email : String
  otp : String
  expiresAt : Nat
  isUsed : Bool
deriving Repr, DecidableEq

/-- A row of the `device_session` table (the fields the core reads). -/
structure DeviceSessionRow where
  id : Nat
  userId : Nat
  ipAddress : String
  browser : String
  os : String
  isBlocked : Bool
  lastActive : Nat
deriving Repr, DecidableEq

/-- The device fingerprint extracted from a request by
`extractDeviceInfo` (ip + browser + os tuple). -/
structure DeviceInfo where
  ipAddress : String
  browser : String
  os : String
deriving Repr, DecidableEq

/-- The whole persistent store, plus the clock (`now`), the `otp` table's
default time-to-live used for its `expires_at` column default, and the id
counter for new device sessions. -/
structure Db where
  users : List UserRow
  businesses : List BusinessRow
  userRoles : List UserRoleRow
  settings : List TwoFASettings
  authenticators : List AuthenticatorRow
  securityQuestions : List SecurityQuestionRow
  backupCodes : List BackupCodeRow
  attempts : List AttemptRow
  otps : List OtpRow
  sessions : List DeviceSessionRow
  now : Nat
  otpTtl : Nat
  nextSessionId : Nat
deriving Repr, DecidableEq

/-- The payload of a signed JWT as produced by the login flows:
`temp2FA` marks a second-factor-pending token, `temp` a role-selection
token; a final session token has both `false`. -/
structure Jwt where
  id : Nat
  role : String
  temp2FA : Bool
  temp : Bool
  actualRole : Option String
  expiresIn : String
deriving Repr, DecidableEq

/-- The four-method availability object returned by `login` in its
2FA-pending response. -/
structure AvailableMethods where
  authenticator : Bool
  oneTimeCode : Bool
  securityQuestion : Bool
  backupCode : Bool
deriving Repr, DecidableEq

/-- The distinguishing part of a successful response body from the login
orchestrator. -/
inductive Payload where
  | twoFAPending (tempToken : Jwt) (methods : AvailableMethods)
  | roleSelection (tempToken : Jwt) (availableRoles : List String)
  | loggedIn (token : Jwt)
deriving Repr, DecidableEq

/-- `Response` from `utils/controller.js`: `Response.error(message, code)`
(default code 400), `Response.ok(body)` (code 200) and
`Response.okMessage(message)` (code 200). -/
inductive Resp where
  | ok (payload : Payload)
  | okMessage (message : String)
  | error (message : String) (code : Nat)
deriving Repr, DecidableEq

/-- The HTTP status of a response (`Response.code`). -/
def Resp.code : Resp → Nat
  | Resp.ok _ => 200
  | Resp.okMessage _ => 200
  | Resp.error _ c => c

/-- The `Response.error` getter: `code < 200 || code >= 300`. -/
def Resp.isError (r : Resp) : Bool :=
  decide (r.code < 200) || decide (300 ≤ r.code)

/-! ## Model layer (`models/twoFactor`, `models/auth`, `models/user`,
`models/userRoles`, `models/deviceSession`) -/

/-- `twoFactorModel.get2FASettings`: `SELECT * FROM user_2fa_settings
WHERE user_id = ?`. -/
def get2FASettings (db : Db) (userId : Nat) : Option TwoFASettings :=
  db.settings.find? (fun s => s.userId == userId)

/-- `twoFactorModel.getAuthenticatorSecret`: the latest
`user_authenticator` row for the user. -/
def getAuthenticatorSecret (db : Db) (userId : Nat) : Option AuthenticatorRow :=
  db.authenticators.find? (fun a => a.userId == userId)

/-- `twoFactorModel.getSecurityQuestions`: all `user_security_question`
rows of the user. -/
def getSecurityQuestions (db : Db) (userId : Nat) : List SecurityQuestionRow :=
  db.securityQuestions.filter (fun q => q.userId == userId)

/-- `twoFactorModel.log2FAAttempt`: append-only INSERT into
`user_2fa_attempt`. -/
def log2FAAttempt (db : Db) (a : AttemptRow) : Db :=
  { db with attempts := db.attempts ++ [a] }

/-- `twoFactorModel.getRecentFailedAttempts`: count of rows with
`success = FALSE` and `created_at > now - minutes`. -/
def getRecentFailedAttempts (db : Db) (userId : Nat) (minutes : Nat) : Nat :=
  (db.attempts.filter (fun a =>
    a.userId == userId && !a.success && decide (db.now < a.createdAt + minutes * 60))).length

/-- `twoFactorModel.useBackupCode`: SELECT the unused row with this hash,
then UPDATE it by id to `is_used = TRUE`.  Two separate queries; the
UPDATE does not re-check `is_used`. -/
def useBackupCode (db : Db) (userId : Nat) (codeHash : String) : Bool × Db :=
  match db.backupCodes.find? (fun c =>
      c.userId == userId && c.codeHash == codeHash && !c.isUsed) with
  | none => (false, db)
  | some code =>
      (true, { db with backupCodes := db.backupCodes.map (fun r =>
        if r.id == code.id then { r with isUsed := true } else r) })

/-- `authModel.insertOtp`: `INSERT INTO otp (email, otp) VALUES (?, ?)`;
`expires_at` is filled in by the table default, `is_used` starts false.
The row carries no purpose tag. -/
def insertOtp (db : Db) (email otp : String) : Db :=
  { db with otps := db.otps ++
      [{ email := email, otp := otp, expiresAt := db.now + db.otpTtl, isUsed := false }] }

/-- `authModel.verifyToken`: `SELECT * FROM otp WHERE otp = ? AND email =
? AND expires_at > CURRENT_TIMESTAMP AND is_used = false`, then
`res.length > 0`. -/
def verifyToken (db : Db) (email otp : String) : Bool :=
  decide (0 < (db.otps.filter (fun r =>
    r.otp == otp && r.email == email && decide (db.now < r.expiresAt) && !r.isUsed)).length)

/-- `authModel.updateOtpStatus`: `UPDATE otp SET is_used = true WHERE
email = ?` — every row of the email, not only a matched one. -/
def updateOtpStatus (db : Db) (email : String) : Db :=
  { db with otps := db.otps.map (fun r =>
      if r.email == email then { r with isUsed := true } else r) }

/-- `userModel.getByEmail` (no `is_deleted` filter). -/
def getByEmail (db : Db) (email : String) : Option UserRow :=
  db.users.find? (fun u => u.email == email)

/-- `userModel.getById` (no `is_deleted` filter). -/
def getById (db : Db) (id : Nat) : Option UserRow :=
  db.users.find? (fun u => u.id == id)

/-- `userModel.updateLastLoggedIn`. -/
def updateLastLoggedIn (db : Db) (id : Nat) : Db :=
  { db with users := db.users.map (fun u =>
      if u.id == id then { u with lastLoggedIn := some db.now } else u) }

/-- `userRolesModel.getUserRoleNames`: names of the user's active
`user_roles` rows. -/
def getUserRoleNames (db : Db) (userId : Nat) : List String :=
  ((db.userRoles.filter (fun r => r.userId == userId && r.isActive)).map
    (fun r => r.roleName))

/-- `deviceSessionModel.getUserSessions`. -/
def getUserSessions (db : Db) (userId : Nat) : List DeviceSessionRow :=
  db.sessions.filter (fun s => s.userId == userId)

/-- `deviceSessionModel.getSessionById`. -/
def getSessionById (db : Db) (sessionId : Nat) : Option DeviceSessionRow :=
  db.sessions.find? (fun s => s.id == sessionId)

/-- `deviceSessionModel.createSession`: insert an unblocked session for
the fingerprint. -/
def createSession (db : Db) (userId : Nat) (d : DeviceInfo) : Db :=
  { db with
      sessions := db.sessions ++
        [{ id := db.nextSessionId, userId := userId, ipAddress := d.ipAddress,
           browser := d.browser, os := d.os, isBlocked := false, lastActive := db.now }],
      nextSessionId := db.nextSessionId + 1 }

/-- `deviceSessionModel.blockSession`. -/
def blockSession (db : Db) (sessionId : Nat) : Db :=
  { db with sessions := db.sessions.map (fun s =>
      if s.id == sessionId then { s with isBlocked := true } else s) }

/-- `deviceSessionModel.unblockSession`. -/
def unblockSession (db : Db) (sessionId : Nat) : Db :=
  { db with sessions := db.sessions.map (fun s =>
      if s.id == sessionId then { s with isBlocked := false } else s) }

/-- `deviceSessionModel.deleteSession`. -/
def deleteSession (db : Db) (sessionId : Nat) : Db :=
  { db with sessions := db.sessions.filter (fun s => !(s.id == sessionId)) }

/-- `deviceSessionModel.updateLastActive`. -/
def updateLastActive (db : Db) (sessionId : Nat) : Db :=
  { db with sessions := db.sessions.map (fun s =>
      if s.id == sessionId then { s with lastActive := db.now } else s) }

/-! ## Factor verifiers (`services/twoFactorVerification.js`)

`bcrypt.compare` and `speakeasy.totp.verify` are external black-box
primitives; they are passed in as boolean-valued parameters `cmp plain
hash` and `totp secret token`. -/

/-- One `{id, answer}` element of the answers array passed to the
security-question verifier. -/
structure AnswerPair where
  id : Nat
  answer : String
deriving Repr, DecidableEq

/-- `verifyAuthenticatorCode`: requires a verified secret row; a missing
or unverified row returns `false` with no ledger write; otherwise the
TOTP check runs and one attempt row is logged with its outcome. -/
def verifyAuthenticatorCode (totp : String → String → Bool) (userId : Nat)
    (token : String) (ip : Option String) (db : Db) : Bool × Db :=
  match getAuthenticatorSecret db userId with
  | none => (false, db)
  | some authData =>
      if !authData.isVerified then (false, db)
      else
        let isValid := totp authData.secret token
        (isValid, log2FAAttempt db
          { userId := userId, method := "authenticator", success := isValid,
            ipAddress := ip, createdAt := db.now })

/-- `verifyOneTimeCode`: check via `authModel.verifyToken`, log the
attempt, and on success mark the email's OTPs used via
`authModel.updateOtpStatus`. -/
def verifyOneTimeCode (userId : Nat) (email otp : String) (ip : Option String)
    (db : Db) : Bool × Db :=
  let isValid := verifyToken db email otp
  let db1 := log2FAAttempt db
    { userId := userId, method := "one_time_code", success := isValid,
      ipAddress := ip, createdAt := db.now }
  (isValid, if isValid then updateOtpStatus db1 email else db1)

/-- The answer normalization before hash comparison:
`answer.toLowerCase().trim()`. -/
def normalizeAnswer (s : String) : String :=
  s.toLower.trim

/-- `verifySecurityQuestionsCode`: no stored questions → `false`, no
ledger write; empty answers array → `false` with a failure row; otherwise
success iff at least one supplied answer matches its question's stored
hash (unknown question ids are skipped), and one row is logged with that
outcome. -/
def verifySecurityQuestionsCode (cmp : String → String → Bool) (userId : Nat)
    (answers : List AnswerPair) (ip : Option String) (db : Db) : Bool × Db :=
  let questions := getSecurityQuestions db userId
  if questions.isEmpty then (false, db)
  else if answers.isEmpty then
    (false, log2FAAttempt db
      { userId := userId, method := "security_question", success := false,
        ipAddress := ip, createdAt := db.now })
  else
    let atLeastOneCorrect := answers.any (fun a =>
      match questions.find? (fun q => q.id == a.id) with
      | none => false
      | some question => cmp (normalizeAnswer a.answer) question.answerHash)
    (atLeastOneCorrect, log2FAAttempt db
      { userId := userId, method := "security_question", success := atLeastOneCorrect,
        ipAddress := ip, createdAt := db.now })

/-- The `SELECT * FROM user_2fa_backup_code WHERE user_id = ? AND is_used
= FALSE` snapshot taken at the start of `verifyBackupCode`. -/
def unusedBackupCodes (db : Db) (userId : Nat) : List BackupCodeRow :=
  db.backupCodes.filter (fun c => c.userId == userId && !c.isUsed)

/-- `verifyBackupCode`: scan the unused-codes snapshot with
`bcrypt.compare`; on the first match call `useBackupCode` (its return
value is ignored), log success and return `true`; with no match log
failure and return `false`. -/
def verifyBackupCode (cmp : String → String → Bool) (userId : Nat)
    (code : String) (ip : Option String) (db : Db) : Bool × Db :=
  let codes := unusedBackupCodes db userId
  match codes.find? (fun storedCode => cmp code storedCode.codeHash) with
  | some storedCode =>
      let db1 := (useBackupCode db userId storedCode.codeHash).2
      (true, log2FAAttempt db1
        { userId := userId, method := "backup_code", success := true,
          ipAddress := ip, createdAt := db1.now })
  | none =>
      (false, log2FAAttempt db
        { userId := userId, method := "backup_code", success := false,
          ipAddress := ip, createdAt := db.now })

/-- The `{method, code, answers}` verification data passed to
`verify2FA`. -/
structure VerificationData where
  method : String
  code : String
  answers : List AnswerPair
deriving Repr, DecidableEq

/-- Wrap a verifier's boolean outcome into `verify2FA`'s response:
failure → `Response.error("Invalid verification", 400)`, success →
`Response.okMessage("2FA verification successful")`. -/
def respond2FA (r : Bool × Db) : Resp × Db :=
  if r.1 then (Resp.okMessage "2FA verification successful", r.2)
  else (Resp.error "Invalid verification" 400, r.2)

/-- The method-dispatch switch of `verify2FA` (the code after the lockout
check). -/
def dispatch2FA (cmp totp : String → String → Bool) (userId : Nat)
    (email : String) (vd : VerificationData) (ip : Option String) (db : Db) : Resp × Db :=
  if vd.method == "authenticator" then
    respond2FA (verifyAuthenticatorCode totp userId vd.code ip db)
  else if vd.method == "one_time_code" then
    respond2FA (verifyOneTimeCode userId email vd.code ip db)
  else if vd.method == "security_question" then
    respond2FA (verifySecurityQuestionsCode cmp userId vd.answers ip db)
  else if vd.method == "backup_code" then
    respond2FA (verifyBackupCode cmp userId vd.code ip db)
  else (Resp.error "Invalid 2FA method" 400, db)

/-- `verify2FA`: count the trailing-30-minute failed attempts first; at 5
or more return the 429 lockout error before dispatching to any verifier
(and without touching the store); below 5 dispatch on `method`. -/
def verify2FA (cmp totp : String → String → Bool) (userId : Nat)
    (email : String) (vd : VerificationData) (ip : Option String) (db : Db) : Resp × Db :=
  let failedAttempts := getRecentFailedAttempts db userId 30
  if 5 ≤ failedAttempts then
    (Resp.error "Too many failed attempts. Please try again in 30 minutes." 429, db)
  else dispatch2FA cmp totp userId email vd ip db

/-! ## Login orchestrator (`services/auth.js`) -/

/-- `isCurrentDevice` from `utils/deviceInfo.js`: fingerprint equality on
ip, browser and os — session id plays no part. -/
def isCurrentDevice (d : DeviceInfo) (s : DeviceSessionRow) : Bool :=
  d.ipAddress == s.ipAddress && d.browser == s.browser && d.os == s.os

/-- The block message shared by the login-path device checks. -/
def deviceBlockedMessage : String :=
  "This device has been blocked from accessing this account. Please contact support or unblock from another device."

/-- `isDeviceBlocked` from `services/auth.js`: no request → `false`; the
session lookup's outcome is the `lookup` argument — an error is caught
and yields `false` (fail open); otherwise blocked iff some session is
blocked and matches the fingerprint. -/
def isDeviceBlocked (reqInfo : Option DeviceInfo)
    (lookup : Except String (List DeviceSessionRow)) : Bool :=
  match reqInfo with
  | none => false
  | some deviceInfo =>
      match lookup with
      | Except.error _ => false
      | Except.ok sessions =>
          ((sessions.find? (fun session =>
            session.isBlocked && session.ipAddress == deviceInfo.ipAddress &&
            session.browser == deviceInfo.browser && session.os == deviceInfo.os)).isSome)

/-- `ROLES.SUPER_ADMIN` from `constants/roles.js`. -/
def SUPER_ADMIN : String := "super_admin"

/-- `ADMIN_ROLES` from `constants/roles.js`. -/
def ADMIN_ROLES : List String := ["admin", "super_admin", "manager"]

/-- The `jwt.sign({id, role, temp2FA: true}, secret, {expiresIn: "10m"})`
payload of `login`'s 2FA-pending branch. -/
def signTemp2FAToken (user : UserRow) : Jwt :=
  { id := user.id, role := user.role, temp2FA := true, temp := false,
    actualRole := none, expiresIn := "10m" }

/-- The `jwt.sign({id, role, temp: true}, secret, {expiresIn: "10m"})`
payload of the role-selection branches. -/
def signTempRoleToken (user : UserRow) : Jwt :=
  { id := user.id, role := user.role, temp2FA := false, temp := true,
    actualRole := none, expiresIn := "10m" }

/-- The final `jwt.sign({id, role}, secret, {expiresIn: "7d"})` session
token payload. -/
def signSessionToken (user : UserRow) : Jwt :=
  { id := user.id, role := user.role, temp2FA := false, temp := false,
    actualRole := none, expiresIn := "7d" }

/-- The tail of `login` after a successful 2FA-settings gate: the
super_admin multi-role branch issues a role-selection temp token,
otherwise a session token is minted, a device session created (when a
request is present) and last-login stamped. -/
def loginTail (db : Db) (user : UserRow) (reqInfo : Option DeviceInfo) : Resp × Db :=
  if user.role == SUPER_ADMIN && decide (1 < (getUserRoleNames db user.id).length) then
    (Resp.ok (Payload.roleSelection (signTempRoleToken user) (getUserRoleNames db user.id)), db)
  else
    let db1 := match reqInfo with
      | some d => createSession db user.id d
      | none => db
    let db2 := updateLastLoggedIn db1 user.id
    (Resp.ok (Payload.loggedIn (signSessionToken user)), db2)

/-- `login({email, password, req})`.  The device-session lookup backing
`isDeviceBlocked` is passed in as `lookup` so that its error outcome can
be stated. -/
def login (cmp : String → String → Bool) (db : Db) (email password : String)
    (reqInfo : Option DeviceInfo)
    (lookup : Except String (List DeviceSessionRow)) : Resp × Db :=
  match getByEmail db email with
  | none => (Resp.error "User does not exist" 404, db)
  | some user =>
      if !(cmp password user.password) then (Resp.error "Invalid password" 400, db)
      else if user.isDeleted then (Resp.error "User not found" 404, db)
      else if isDeviceBlocked reqInfo lookup then
        (Resp.error deviceBlockedMessage 403, db)
      else
        match get2FASettings db user.id with
        | some twoFASettings =>
            if twoFASettings.is2faEnabled then
              (Resp.ok (Payload.twoFAPending (signTemp2FAToken user)
                { authenticator := twoFASettings.authenticatorEnabled,
                  oneTimeCode := twoFASettings.oneTimeCodeEnabled,
                  securityQuestion := twoFASettings.securityQuestionEnabled,
                  backupCode := true }), db)
            else loginTail db user reqInfo
        | none => loginTail db user reqInfo

/-! ## Full-session authentication middleware (`middleware/auth.js`) -/

/-- The outcome of `authenticateBusinessAdmin`: either a denial response
or the request proceeding with the user id and the token's effective
role. -/
inductive AuthOutcome where
  | denied (message : String) (code : Nat)
  | granted (userId : Nat) (effectiveRole : String)
deriving Repr, DecidableEq

/-- The `checkDeviceBlocked` middleware step: deny when a session matches
the fingerprint and is blocked; otherwise stamp the matched session's
last-active time and continue. -/
def checkDeviceBlocked (userId : Nat) (deviceInfo : DeviceInfo) (db : Db) :
    Bool × Db :=
  let sessions := getUserSessions db userId
  match sessions.find? (fun session =>
      session.ipAddress == deviceInfo.ipAddress &&
      session.browser == deviceInfo.browser && session.os == deviceInfo.os) with
  | some currentSession =>
      if currentSession.isBlocked then (true, db)
      else (false, updateLastActive db currentSession.id)
  | none => (false, db)

/-- `authenticateBusinessAdmin`: verify the bearer token, reject
role-selection temp tokens (`decoded.temp`), look up the user, require a
business account, an admin effective role (from the token), an active
business, and an unblocked device.  `token = none` models a missing
header, `some (Except.error e)` a `jwt.verify` failure. -/
def authenticateBusinessAdmin (token : Option (Except String Jwt))
    (deviceInfo : DeviceInfo) (db : Db) : AuthOutcome × Db :=
  match token with
  | none => (AuthOutcome.denied "Unauthorized" 401, db)
  | some (Except.error _) => (AuthOutcome.denied "Invalid token" 401, db)
  | some (Except.ok decoded) =>
      if decoded.temp then
        (AuthOutcome.denied "Please complete role selection first" 401, db)
      else
        match getById db decoded.id with
        | none => (AuthOutcome.denied "Unauthorized" 401, db)
        | some user =>
            if !(user.accountName == "business") then
              (AuthOutcome.denied "Only business accounts can manage users" 403, db)
            else if !(ADMIN_ROLES.contains decoded.role) then
              (AuthOutcome.denied "Only admins can manage business users" 403, db)
            else
              match user.businessId with
              | none =>
                  (AuthOutcome.denied "User must be associated with a business" 403, db)
              | some businessId =>
                  match db.businesses.find? (fun b => b.id == businessId) with
                  | none => (AuthOutcome.denied "Business not found or inactive" 404, db)
                  | some business =>
                      if !business.isActive then
                        (AuthOutcome.denied "Business not found or inactive" 404, db)
                      else
                        let r := checkDeviceBlocked user.id deviceInfo db
                        if r.1 then (AuthOutcome.denied deviceBlockedMessage 403, r.2)
                        else (AuthOutcome.granted user.id decoded.role, r.2)

/-- The generic `authenticate` middleware: this one rejects both kinds of
temporary token (`decoded.temp || decoded.temp2FA`) before treating the
bearer token as a full session. -/
def authenticate (token : Option (Except String Jwt)) (deviceInfo : DeviceInfo)
    (db : Db) : AuthOutcome × Db :=
  match token with
  | none => (AuthOutcome.denied "Authentication required. Please log in." 401, db)
  | some (Except.error _) => (AuthOutcome.denied "Invalid token. Please log in again." 401, db)
  | some (Except.ok decoded) =>
      if decoded.temp || decoded.temp2FA then
        (AuthOutcome.denied "Please complete authentication process first" 401, db)
      else
        match getById db decoded.id with
        | none => (AuthOutcome.denied "User not found or account deactivated" 401, db)
        | some user =>
            if user.isDeleted then
              (AuthOutcome.denied "User not found or account deactivated" 401, db)
            else if !user.isActive then
              (AuthOutcome.denied "Account is inactive" 403, db)
            else
              let r := checkDeviceBlocked user.id deviceInfo db
              if r.1 then (AuthOutcome.denied deviceBlockedMessage 403, r.2)
              else (AuthOutcome.granted user.id decoded.role, r.2)

/-! ## Device-session self-service (`services/deviceSession.js`) -/

/-- `blockDevice(userId, sessionId, req)`: 404 when the session is
missing, 403 when it belongs to another user, 400 when the session is the
caller's current device (fingerprint match), otherwise block it. -/
def blockDevice (userId sessionId : Nat) (reqInfo : Option DeviceInfo)
    (db : Db) : Resp × Db :=
  match getSessionById db sessionId with
  | none => (Resp.error "Device session not found" 404, db)
  | some session =>
      if !(session.userId == userId) then
        (Resp.error "Unauthorized to block this device" 403, db)
      else if (match reqInfo with
               | some d => isCurrentDevice d session
               | none => false) then
        (Resp.error "Cannot block your current device" 400, db)
      else
        (Resp.okMessage "Device blocked successfully. This device can no longer access your account.",
         blockSession db sessionId)

/-- `revokeDevice(userId, sessionId, req)`: like `blockDevice` but
deleting the session. -/
def revokeDevice (userId sessionId : Nat) (reqInfo : Option DeviceInfo)
    (db : Db) : Resp × Db :=
  match getSessionById db sessionId with
  | none => (Resp.error "Device session not found" 404, db)
  | some session =>
      if !(session.userId == userId) then
        (Resp.error "Unauthorized to revoke this device" 403, db)
      else if (match reqInfo with
               | some d => isCurrentDevice d session
               | none => false) then
        (Resp.error "Cannot revoke your current device session" 400, db)
      else
        (Resp.okMessage "Device session revoked successfully. This device has been logged out.",
         deleteSession db sessionId)

/-! ## OTP-minting and password-reset flows (`services/auth.js`,
`services/twoFactor.js`)

The 6-digit code produced by `randomInt` is passed in as `otp`; the email
sender's outcome is the flag `emailOk`. -/

/-- `sendOneTimeCode(user)` from the 2FA service: insert the OTP into the
shared `otp` table, then send the email; a send failure throws (modelled
as `Except.error`) but the OTP row is already inserted either way. -/
def sendOneTimeCode (db : Db) (user : UserRow) (otp : String) (emailOk : Bool) :
    Except String Resp × Db :=
  let db1 := insertOtp db user.email otp
  if emailOk then (Except.ok (Resp.okMessage "Verification code sent to your email"), db1)
  else (Except.error "send failed", db1)

/-- `requestPasswordResetOTP({email})`: for an existing, non-deleted
super_admin user, insert the OTP into the shared `otp` table and try to
email it (an email failure returns a 500 but the row stays); any other
user gets the non-revealing success message with no insert. -/
def requestPasswordResetOTP (db : Db) (email otp : String) (emailOk : Bool) :
    Resp × Db :=
  match getByEmail db email with
  | none =>
      (Resp.okMessage "If an account with that email exists, a password reset code has been sent.", db)
  | some user =>
      if user.isDeleted then
        (Resp.okMessage "If an account with that email exists, a password reset code has been sent.", db)
      else if !(user.role == SUPER_ADMIN) then
        (Resp.okMessage "If an account with that email exists, a password reset code has been sent.", db)
      else
        let db1 := insertOtp db user.email otp
        if emailOk then
          (Resp.okMessage "If an account with that email exists, a password reset code has been sent.", db1)
        else
          (Resp.error "Failed to send password reset code. Please try again later." 500, db1)

/-- `resetPasswordWithOTP({email, otp, password})`: validate the user,
check the code with the same `authModel.verifyToken` the 2FA email
verifier uses, then update the password (hashing passed in as `hash`) and
mark the email's OTPs used. -/
def resetPasswordWithOTP (hash : String → String) (db : Db)
    (email otp password : String) : Resp × Db :=
  match getByEmail db email with
  | none => (Resp.error "Invalid credentials" 400, db)
  | some user =>
      if user.isDeleted then (Resp.error "Invalid credentials" 400, db)
      else if !(user.role == SUPER_ADMIN) then (Resp.error "Invalid credentials" 400, db)
      else if !(verifyToken db email otp) then
        (Resp.error "Invalid or expired OTP code" 400, db)
      else
        let hashedPassword := hash password
        let db1 := { db with users := db.users.map (fun u =>
          if u.id == user.id then { u with password := hashedPassword } else u) }
        let db2 := updateOtpStatus db1 email
        (Resp.okMessage "Password has been reset successfully. You can now login with your new password.", db2)

/-! ## Interleaving semantics for concurrent `verifyBackupCode` calls

One `verifyBackupCode(userId, code, req)` request issues up to four
database queries, each individually atomic:

1. the unused-codes SELECT snapshot,
2. `useBackupCode`'s SELECT of the matched hash's unused row,
3. `useBackupCode`'s UPDATE of that row by id (skipped when the SELECT
   found nothing — the outer code ignores `useBackupCode`'s result),
4. the attempt-ledger INSERT.

`bcStep` is `verifyBackupCode` split at exactly these query boundaries,
so that two concurrent requests can be interleaved query-by-query. -/

/-- The UPDATE half of `useBackupCode`: `UPDATE user_2fa_backup_code SET
is_used = TRUE WHERE id = ?`. -/
def markBackupCodeUsedById (db : Db) (rowId : Nat) : Db :=
  { db with backupCodes := db.backupCodes.map (fun r =>
      if r.id == rowId then { r with isUsed := true } else r) }

/-- The control point of one in-flight `verifyBackupCode` request,
between two of its atomic queries. -/
inductive BCLocal where
  | start
  | gotCodes (codes : List BackupCodeRow)
  | useChecked (found : Option Nat)
  | needLog
  | done (result : Bool)
deriving Repr, DecidableEq

/-- Execute the next atomic query of one `verifyBackupCode` request.  A
finished request stutters. -/
def bcStep (cmp : String → String → Bool) (userId : Nat) (code : String)
    (ip : Option String) (l : BCLocal) (db : Db) : BCLocal × Db :=
  match l with
  | BCLocal.start => (BCLocal.gotCodes (unusedBackupCodes db userId), db)
  | BCLocal.gotCodes codes =>
      match codes.find? (fun storedCode => cmp code storedCode.codeHash) with
      | some storedCode =>
          (BCLocal.useChecked ((db.backupCodes.find? (fun c =>
            c.userId == userId && c.codeHash == storedCode.codeHash && !c.isUsed)).map
              (fun c => c.id)), db)
      | none =>
          (BCLocal.done false, log2FAAttempt db
            { userId := userId, method := "backup_code", success := false,
              ipAddress := ip, createdAt := db.now })
  | BCLocal.useChecked (some rowId) => (BCLocal.needLog, markBackupCodeUsedById db rowId)
  | BCLocal.useChecked none =>
      (BCLocal.done true, log2FAAttempt db
        { userId := userId, method := "backup_code", success := true,
          ipAddress := ip, createdAt := db.now })
  | BCLocal.needLog =>
      (BCLocal.done true, log2FAAttempt db
        { userId := userId, method := "backup_code", success := true,
          ipAddress := ip, createdAt := db.now })
  | BCLocal.done r => (BCLocal.done r, db)

/-- Two concurrent `verifyBackupCode` requests over one shared store. -/
structure RaceState where
  p1 : BCLocal
  p2 : BCLocal
  db : Db
deriving Repr, DecidableEq

/-- Run one atomic query of request 1 (`true`) or request 2 (`false`). -/
def raceStep (cmp : String → String → Bool) (userId : Nat) (code : String)
    (ip1 ip2 : Option String) (chooseFirst : Bool) (s : RaceState) : RaceState :=
  if chooseFirst then
    let r := bcStep cmp userId code ip1 s.p1 s.db
    { s with p1 := r.1, db := r.2 }
  else
    let r := bcStep cmp userId code ip2 s.p2 s.db
    { s with p2 := r.1, db := r.2 }

/-- Run the two requests under a schedule (the list of which request
issues the next query). -/
def raceRun (cmp : String → String → Bool) (userId : Nat) (code : String)
    (ip1 ip2 : Option String) (sched : List Bool) (s : RaceState) : RaceState :=
  sched.foldl (fun acc c => raceStep cmp userId code ip1 ip2 c acc) s

/-! ## Concrete fixtures -/

/-- An executable stand-in for the external `bcrypt.compare` capability:
a plaintext matches exactly the hash `"h:" ++ plaintext`. -/
def cmp0 : String → String → Bool := fun plain hashed => hashed == "h:" ++ plain

/-- An executable stand-in for the external `speakeasy.totp.verify`
capability. -/
def totp0 : String → String → Bool := fun secret token =>
  secret == "s" && token == "000000"

/-- An executable stand-in for the external `bcrypt.hash` capability,
matching `cmp0`. -/
def hash0 : String → String := fun plain => "h:" ++ plain

/-- An empty store at time 1000 with a 600-second OTP default TTL. -/
def emptyDb : Db :=
  { users := [], businesses := [], userRoles := [], settings := [],
    authenticators := [], securityQuestions := [], backupCodes := [],
    attempts := [], otps := [], sessions := [], now := 1000, otpTtl := 600,
    nextSessionId := 1 }

/-- A plain, active user whose password hash matches `"pw"` under `cmp0`. -/
def user1 : UserRow :=
  { id := 1, email := "u@x", password := "h:pw", role := "standard_user",
    accountName := "individual", businessId := none, isActive := true,
    isDeleted := false, lastLoggedIn := none }

/-- A soft-deleted user whose password hash matches `"pw"` under `cmp0`. -/
def deletedUser : UserRow :=
  { id := 2, email := "d@x", password := "h:pw", role := "standard_user",
    accountName := "individual", businessId := none, isActive := true,
    isDeleted := true, lastLoggedIn := none }

/-- Store holding `user1` and `deletedUser`. -/
def dbLogin : Db := { emptyDb with users := [user1, deletedUser] }

/-- One failed second-factor attempt by user 1 at the store's current
time. -/
def failedAttempt : AttemptRow :=
  { userId := 1, method := "authenticator", success := false,
    ipAddress := none, createdAt := 1000 }

/-- Five recorded failures for user 1, all inside the trailing 30-minute
window. -/
def dbLocked : Db :=
  { emptyDb with attempts :=
      [failedAttempt, failedAttempt, failedAttempt, failedAttempt, failedAttempt] }

/-- A sample verification request (authenticator method). -/
def vd0 : VerificationData := { method := "authenticator", code := "000000", answers := [] }

/-- Store with a single unused backup code of user 1 whose hash matches
the plaintext `"c"` under `cmp0`. -/
def dbOneCode : Db :=
  { emptyDb with backupCodes := [{ id := 1, userId := 1, codeHash := "h:c", isUsed := false }] }

/-- A super_admin business-account owner with 2FA enabled. -/
def superAdminUser : UserRow :=
  { id := 1, email := "a@x", password := "h:pw", role := "super_admin",
    accountName := "business", businessId := some 7, isActive := true,
    isDeleted := false, lastLoggedIn := none }

/-- Store for the intermediate-token scenario: `superAdminUser`, their
active business, and 2FA enabled via the authenticator method. -/
def db2FAAdmin : Db :=
  { emptyDb with
      users := [superAdminUser],
      businesses := [{ id := 7, isActive := true }],
      settings := [{ userId := 1, authenticatorEnabled := true, passkeyEnabled := false,
                     oneTimeCodeEnabled := false, securityQuestionEnabled := false,
                     is2faEnabled := true }] }

/-- A request fingerprint. -/
def dInfo0 : DeviceInfo := { ipAddress := "1.1.1.1", browser := "Chrome", os := "Mac" }

/-- Store with one stored security question of user 1 whose hashed answer
matches the normalized plaintext `"ans"` under `cmp0`. -/
def dbQuestions : Db :=
  { emptyDb with securityQuestions :=
      [{ id := 1, userId := 1, question := "pet", answerHash := "h:ans" }] }

/-- Store with two unexpired, unused OTP rows for one email. -/
def dbTwoOtps : Db :=
  { emptyDb with otps :=
      [{ email := "u@x", otp := "111111", expiresAt := 2000, isUsed := false },
       { email := "u@x", otp := "222222", expiresAt := 2000, isUsed := false }] }

/-- An unblocked device session of user 1 whose fingerprint equals
`dInfo0`. -/
def otherSession : DeviceSessionRow :=
  { id := 9, userId := 1, ipAddress := "1.1.1.1", browser := "Chrome", os := "Mac",
    isBlocked := false, lastActive := 0 }

/-- Store holding that one session. -/
def dbSessions : Db := { emptyDb with sessions := [otherSession] }

/-- Store holding only `superAdminUser`. -/
def dbSuper : Db := { emptyDb with users := [superAdminUser] }

/-! ## Helper lemmas -/

theorem attempts_log2FAAttempt (db : Db) (a : AttemptRow) :
    (log2FAAttempt db a).attempts = db.attempts ++ [a] := rfl

theorem attempts_updateOtpStatus (db : Db) (email : String) :
    (updateOtpStatus db email).attempts = db.attempts := rfl

theorem attempts_useBackupCode (db : Db) (userId : Nat) (codeHash : String) :
    (useBackupCode db userId codeHash).2.attempts = db.attempts := by
  unfold useBackupCode
  cases db.backupCodes.find? (fun c =>
    c.userId == userId && c.codeHash == codeHash && !c.isUsed) <;> rfl

theorem now_useBackupCode (db : Db) (userId : Nat) (codeHash : String) :
    (useBackupCode db userId codeHash).2.now = db.now := by
  unfold useBackupCode
  cases db.backupCodes.find? (fun c =>
    c.userId == userId && c.codeHash == codeHash && !c.isUsed) <;> rfl

/-! ## C1 — lockout gate of `verify2FA` -/

/-- C1: for every user and every second-factor verification call, a
failed-attempt count of at least 5 in the trailing 30 minutes makes
`verify2FA` return the 429 `TooManyAttempts` error with the store
untouched (no verifier runs, no attempt row is written), and a count
below 5 makes the call proceed to the normal method dispatch. -/
theorem verify2FA_lockout_gate (cmp totp : String → String → Bool)
    (userId : Nat) (email : String) (vd : VerificationData) (ip : Option String)
    (db : Db) :
    (5 ≤ getRecentFailedAttempts db userId 30 →
      verify2FA cmp totp userId email vd ip db =
        (Resp.error "Too many failed attempts. Please try again in 30 minutes." 429, db)) ∧
    (getRecentFailedAttempts db userId 30 < 5 →
      verify2FA cmp totp userId email vd ip db =
        dispatch2FA cmp totp userId email vd ip db) := by
  constructor
  · intro h
    simp only [verify2FA, if_pos h]
  · intro h
    simp only [verify2FA, if_neg (Nat.not_le.mpr h)]

/-- Witness for C1 at concrete stores: `dbLocked` holds five in-window
failures of user 1 and gets the lockout error with an unchanged store;
`emptyDb` is below the threshold and dispatches normally. -/
theorem verify2FA_lockout_gate_witness :
    (5 ≤ getRecentFailedAttempts dbLocked 1 30 ∧
      verify2FA cmp0 totp0 1 "u@x" vd0 none dbLocked =
        (Resp.error "Too many failed attempts. Please try again in 30 minutes." 429, dbLocked)) ∧
    (getRecentFailedAttempts emptyDb 1 30 < 5 ∧
      verify2FA cmp0 totp0 1 "u@x" vd0 none emptyDb =
        dispatch2FA cmp0 totp0 1 "u@x" vd0 none emptyDb) :=
  ⟨⟨by decide, (verify2FA_lockout_gate cmp0 totp0 1 "u@x" vd0 none dbLocked).1 (by decide)⟩,
   ⟨by decide, (verify2FA_lockout_gate cmp0 totp0 1 "u@x" vd0 none emptyDb).2 (by decide)⟩⟩

/-! ## C2 — backup-code redemption under concurrency -/

/-- Sanity check that `bcStep` is exactly `verifyBackupCode` cut at its
query boundaries: running one request alone for four steps ends `done`
with `verifyBackupCode`'s result and store. -/
theorem bcStep_four_eq_verifyBackupCode (cmp : String → String → Bool)
    (userId : Nat) (code : String) (ip : Option String) (db : Db) :
    (let s1 := bcStep cmp userId code ip BCLocal.start db
     let s2 := bcStep cmp userId code ip s1.1 s1.2
     let s3 := bcStep cmp userId code ip s2.1 s2.2
     bcStep cmp userId code ip s3.1 s3.2) =
      (BCLocal.done (verifyBackupCode cmp userId code ip db).1,
       (verifyBackupCode cmp userId code ip db).2) := by
  cases h1 : (unusedBackupCodes db userId).find?
      (fun storedCode => cmp code storedCode.codeHash) with
  | none =>
      simp [bcStep, verifyBackupCode, h1]
  | some storedCode =>
      cases h2 : db.backupCodes.find? (fun c =>
          c.userId == userId && c.codeHash == storedCode.codeHash && !c.isUsed) with
      | none =>
          simp [bcStep, verifyBackupCode, useBackupCode, h1, h2]
      | some c =>
          simp [bcStep, verifyBackupCode, useBackupCode, markBackupCodeUsedById, h1, h2]

/-! ## C3 — what each verifier writes to the attempt ledger -/

/-- Counterexample to C3 as stated: a call to the authenticator verifier
for a user with no stored secret (missing configuration) appends NO
attempt row, not exactly one. -/
theorem authenticator_missing_config_writes_no_row :
    ¬ ((verifyAuthenticatorCode totp0 1 "000000" none emptyDb).2.attempts.length =
        emptyDb.attempts.length + 1) := by
  decide

/-- C3 amended: the email-OTP and backup-code verifiers always append
exactly one attempt row; the authenticator verifier appends one only when
a verified secret row exists (a missing or unverified secret returns
false with no row); the security-question verifier appends one only when
the user has stored questions (none stored returns false with no row, an
empty answers array still logs a failure row). -/
theorem verifiers_attempt_ledger_writes (cmp totp : String → String → Bool)
    (userId : Nat) (token otp email code : String) (answers : List AnswerPair)
    (ip : Option String) (db : Db) :
    ((verifyAuthenticatorCode totp userId token ip db).2.attempts.length =
      db.attempts.length +
        (match getAuthenticatorSecret db userId with
         | some authData => if authData.isVerified then 1 else 0
         | none => 0)) ∧
    ((verifySecurityQuestionsCode cmp userId answers ip db).2.attempts.length =
      db.attempts.length + (if (getSecurityQuestions db userId).isEmpty then 0 else 1)) ∧
    ((verifyOneTimeCode userId email otp ip db).2.attempts.length =
      db.attempts.length + 1) ∧
    ((verifyBackupCode cmp userId code ip db).2.attempts.length =
      db.attempts.length + 1) := by
  refine ⟨?_, ?_, ?_, ?_⟩
  · cases h : getAuthenticatorSecret db userId with
    | none => simp [verifyAuthenticatorCode, h]
    | some authData =>
        by_cases hv : authData.isVerified = true
        · simp [verifyAuthenticatorCode, h, hv, log2FAAttempt]
        · simp [verifyAuthenticatorCode, h, Bool.eq_false_iff.mpr hv, log2FAAttempt]
  · by_cases hq : (getSecurityQuestions db userId).isEmpty = true
    · simp [verifySecurityQuestionsCode, hq]
    · by_cases ha : answers.isEmpty = true
      · simp [verifySecurityQuestionsCode, hq, ha, log2FAAttempt]
      · simp [verifySecurityQuestionsCode, hq, ha, log2FAAttempt]
  · by_cases hv : verifyToken db email otp = true
    · simp [verifyOneTimeCode, hv, updateOtpStatus, log2FAAttempt]
    · simp [verifyOneTimeCode, hv, log2FAAttempt]
  · cases h : (unusedBackupCodes db userId).find?
        (fun storedCode => cmp code storedCode.codeHash) with
    | none => simp [verifyBackupCode, h, log2FAAttempt]
    | some storedCode =>
        simp [verifyBackupCode, h, log2FAAttempt, attempts_useBackupCode]

/-! ## C4 — login failure responses -/

/-- Counterexample to C4 as stated: with one real user on file, an
unknown email and a wrong password for the real user produce DIFFERENT
responses ("User does not exist" with 404 versus "Invalid password" with
400), so the three failure cases are not one identical generic error. -/
theorem login_failures_distinguishable :
    (login cmp0 dbLogin "absent@x" "pw" none (Except.ok [])).1 ≠
      (login cmp0 dbLogin "u@x" "wrong" none (Except.ok [])).1 := by
  decide

/-- C4 amended: the three failure cases produce three distinguishable
responses — absent user: "User does not exist" 404; password mismatch
(checked before the deleted flag): "Invalid password" 400; soft-deleted
user presenting the correct password: "User not found" 404.  In every
case the store is untouched. -/
theorem login_failure_responses (cmp : String → String → Bool) (db : Db)
    (email password : String) (reqInfo : Option DeviceInfo)
    (lookup : Except String (List DeviceSessionRow)) :
    (getByEmail db email = none →
      login cmp db email password reqInfo lookup =
        (Resp.error "User does not exist" 404, db)) ∧
    (∀ user, getByEmail db email = some user → cmp password user.password = false →
      login cmp db email password reqInfo lookup =
        (Resp.error "Invalid password" 400, db)) ∧
    (∀ user, getByEmail db email = some user → cmp password user.password = true →
      user.isDeleted = true →
      login cmp db email password reqInfo lookup =
        (Resp.error "User not found" 404, db)) := by
  refine ⟨?_, ?_, ?_⟩
  · intro h
    simp [login, h]
  · intro user h hpw
    simp [login, h, hpw]
  · intro user h hpw hdel
    simp [login, h, hpw, hdel]

/-- Witness for C4's amended statement on `dbLogin`: an unknown email, a
wrong password for `user1`, and the correct password of the soft-deleted
`deletedUser`, each hitting its distinct response. -/
theorem login_failure_responses_witness :
    login cmp0 dbLogin "absent@x" "pw" none (Except.ok []) =
      (Resp.error "User does not exist" 404, dbLogin) ∧
    login cmp0 dbLogin "u@x" "wrong" none (Except.ok []) =
      (Resp.error "Invalid password" 400, dbLogin) ∧
    login cmp0 dbLogin "d@x" "pw" none (Except.ok []) =
      (Resp.error "User not found" 404, dbLogin) :=
  ⟨(login_failure_responses cmp0 dbLogin "absent@x" "pw" none (Except.ok [])).1
      (by decide),
   (login_failure_responses cmp0 dbLogin "u@x" "wrong" none (Except.ok [])).2.1
      user1 (by decide) (by decide),
   (login_failure_responses cmp0 dbLogin "d@x" "pw" none (Except.ok [])).2.2
      deletedUser (by decide) (by decide) (by decide)⟩

/-! ## C5 — intermediate tokens versus full-session endpoints -/

/-- The generic `authenticate` middleware does reject both intermediate
purposes — evidence that rejecting them is the intended behaviour of
full-session authentication. -/
theorem authenticate_rejects_both_temp_kinds (decoded : Jwt)
    (deviceInfo : DeviceInfo) (db : Db) (h : decoded.temp = true ∨ decoded.temp2FA = true) :
    authenticate (some (Except.ok decoded)) deviceInfo db =
      (AuthOutcome.denied "Please complete authentication process first" 401, db) := by
  have : (decoded.temp || decoded.temp2FA) = true := by
    cases h with
    | inl h1 => simp [h1]
    | inr h2 => simp [h2]
  simp [authenticate, this]

/-- C5 fails on the code: the very second-factor-pending token that
`login` issues for `superAdminUser` (payload `{id, role, temp2FA: true}`)
is accepted by `authenticateBusinessAdmin`, which checks only the
`decoded.temp` discriminator, and it grants full business-admin access —
bypassing 2FA entirely. -/
theorem temp2FA_token_accepted_by_business_admin :
    (login cmp0 db2FAAdmin "a@x" "pw" none (Except.ok [])).1 =
      Resp.ok (Payload.twoFAPending (signTemp2FAToken superAdminUser)
        { authenticator := true, oneTimeCode := false,
          securityQuestion := false, backupCode := true }) ∧
    (signTemp2FAToken superAdminUser).temp2FA = true ∧
    (authenticateBusinessAdmin
        (some (Except.ok (signTemp2FAToken superAdminUser))) dInfo0 db2FAAdmin).1 =
      AuthOutcome.granted 1 "super_admin" := by
  decide

/-! ## C6 — security-question verification policy -/

/-- With pairwise-distinct question ids (the table's primary key), the
id-lookup `find?` returns exactly the member with that id. -/
theorem find?_by_id_eq_some (qs : List SecurityQuestionRow)
    (huniq : qs.Pairwise (fun a b => a.id ≠ b.id)) (q : SecurityQuestionRow)
    (hq : q ∈ qs) (aid : Nat) (hid : q.id = aid) :
    qs.find? (fun x => x.id == aid) = some q := by
  induction qs with
  | nil => cases hq
  | cons head tail ih =>
      rcases List.mem_cons.mp hq with h | h
      · subst h
        have hbeq : (q.id == aid) = true := by simp [hid]
        simp [List.find?_cons, hbeq]
      · have hhead := (List.pairwise_cons.mp huniq).1 q h
        have hne : (head.id == aid) = false := by
          simp only [beq_eq_false_iff_ne, ne_eq]
          rw [← hid]
          exact hhead
        simp [List.find?_cons, hne,
          ih (List.pairwise_cons.mp huniq).2 h]

/-- C6: for a user with at least one stored security question (with the
primary-key uniqueness of ids) and a non-empty answers array, the
verifier succeeds iff at least one supplied answer — lowercased and
trimmed — matches its question's stored hash; supplied ids with no stored
question are skipped, and zero matches means failure however many answers
were supplied. -/
theorem securityQuestions_any_one_correct (cmp : String → String → Bool)
    (userId : Nat) (answers : List AnswerPair) (ip : Option String) (db : Db)
    (hq : getSecurityQuestions db userId ≠ [])
    (ha : answers ≠ [])
    (huniq : (getSecurityQuestions db userId).Pairwise (fun a b => a.id ≠ b.id)) :
    ((verifySecurityQuestionsCode cmp userId answers ip db).1 = true ↔
      ∃ a ∈ answers, ∃ q ∈ getSecurityQuestions db userId,
        q.id = a.id ∧ cmp (normalizeAnswer a.answer) q.answerHash = true) := by
  have hq' : (getSecurityQuestions db userId).isEmpty = false := by
    cases h : getSecurityQuestions db userId with
    | nil => exact absurd h hq
    | cons head tail => rfl
  have ha' : answers.isEmpty = false := by
    cases h : answers with
    | nil => exact absurd h ha
    | cons head tail => rfl
  simp only [verifySecurityQuestionsCode, hq', ha', Bool.false_eq_true, if_false]
  rw [List.any_eq_true]
  constructor
  · rintro ⟨a, hamem, hfa⟩
    refine ⟨a, hamem, ?_⟩
    cases hfind : (getSecurityQuestions db userId).find? (fun x => x.id == a.id) with
    | none =>
        rw [hfind] at hfa
        cases hfa
    | some q =>
        rw [hfind] at hfa
        have hmem := List.mem_of_find?_eq_some hfind
        have hpred := List.find?_some hfind
        exact ⟨q, hmem, by simpa using hpred, hfa⟩
  · rintro ⟨a, hamem, q, hqmem, hid, hcmp⟩
    refine ⟨a, hamem, ?_⟩
    rw [find?_by_id_eq_some _ huniq q hqmem a.id hid]
    exact hcmp

/-- Witness for C6: user 1 of `dbQuestions` has one stored question and
supplies one answer `" ANS "` whose normalization `"ans"` matches the
stored hash. -/
theorem securityQuestions_any_one_correct_witness :
    (verifySecurityQuestionsCode cmp0 1 [{ id := 1, answer := " ANS " }] none dbQuestions).1 = true ↔
      ∃ a ∈ [({ id := 1, answer := " ANS " } : AnswerPair)],
        ∃ q ∈ getSecurityQuestions dbQuestions 1,
          q.id = a.id ∧ cmp0 (normalizeAnswer a.answer) q.answerHash = true :=
  securityQuestions_any_one_correct cmp0 1 [{ id := 1, answer := " ANS " }] none dbQuestions
    (by decide) (by decide) (by decide)

/-! ## C7 — email-OTP verification -/

theorem verifyOneTimeCode_fst (userId : Nat) (email otp : String)
    (ip : Option String) (db : Db) :
    (verifyOneTimeCode userId email otp ip db).1 = verifyToken db email otp := rfl

/-- `authModel.verifyToken` accepts iff some row of the `otp` table has
this code and email, is unexpired and unused — with no recency
restriction. -/
theorem verifyToken_eq_true_iff (db : Db) (email otp : String) :
    verifyToken db email otp = true ↔
      ∃ row ∈ db.otps, row.otp = otp ∧ row.email = email ∧
        db.now < row.expiresAt ∧ row.isUsed = false := by
  unfold verifyToken
  rw [decide_eq_true_iff, List.length_pos]
  constructor
  · intro h
    obtain ⟨row, hrow⟩ := List.exists_mem_of_ne_nil _ h
    have hsplit := List.mem_filter.mp hrow
    refine ⟨row, hsplit.1, ?_⟩
    have hp := hsplit.2
    simp only [Bool.and_eq_true, beq_iff_eq, decide_eq_true_iff,
      Bool.not_eq_true'] at hp
    exact ⟨hp.1.1.1, hp.1.1.2, hp.1.2, hp.2⟩
  · rintro ⟨row, hmem, ho, he, hx, hu⟩
    intro hnil
    have hin : row ∈ db.otps.filter (fun r =>
        r.otp == otp && r.email == email && decide (db.now < r.expiresAt) && !r.isUsed) :=
      List.mem_filter.mpr ⟨hmem, by simp [ho, he, hx, hu]⟩
    rw [hnil] at hin
    cases hin

/-- Counterexample to C7 as stated: `dbTwoOtps` holds two unexpired,
unused OTP rows for the same email; redeeming `"222222"` succeeds and
marks BOTH rows used, so the non-matched row's used flag does not stay
unchanged (the claim would leave the flags as `[false, true]`). -/
theorem otp_success_marks_all_rows_of_email :
    (verifyOneTimeCode 1 "u@x" "222222" none dbTwoOtps).1 = true ∧
    ((verifyOneTimeCode 1 "u@x" "222222" none dbTwoOtps).2.otps.map OtpRow.isUsed) =
      [true, true] ∧
    ((verifyOneTimeCode 1 "u@x" "222222" none dbTwoOtps).2.otps.map OtpRow.isUsed) ≠
      [false, true] := by
  decide

/-- C7 amended: the email-OTP verifier accepts iff the supplied code
exactly matches ANY unexpired, unused OTP row stored for the email (not
only the most recent), and on success `updateOtpStatus` marks EVERY OTP
row of that email used, not just the matched one; on failure the OTP
table is untouched; either way exactly one attempt row is logged. -/
theorem verifyOneTimeCode_lookup_and_update (userId : Nat) (email otp : String)
    (ip : Option String) (db : Db) :
    ((verifyOneTimeCode userId email otp ip db).1 = true ↔
      ∃ row ∈ db.otps, row.otp = otp ∧ row.email = email ∧
        db.now < row.expiresAt ∧ row.isUsed = false) ∧
    ((verifyOneTimeCode userId email otp ip db).1 = true →
      (verifyOneTimeCode userId email otp ip db).2.otps =
        db.otps.map (fun row =>
          if row.email == email then { row with isUsed := true } else row)) ∧
    ((verifyOneTimeCode userId email otp ip db).1 = false →
      (verifyOneTimeCode userId email otp ip db).2.otps = db.otps) ∧
    ((verifyOneTimeCode userId email otp ip db).2.attempts =
      db.attempts ++ [({ userId := userId, method := "one_time_code",
                         success := (verifyOneTimeCode userId email otp ip db).1,
                         ipAddress := ip, createdAt := db.now } : AttemptRow)]) := by
  refine ⟨?_, ?_, ?_, ?_⟩
  · rw [verifyOneTimeCode_fst]
    exact verifyToken_eq_true_iff db email otp
  · intro h
    have hv : verifyToken db email otp = true := by
      rw [← verifyOneTimeCode_fst userId email otp ip db]
      exact h
    simp [verifyOneTimeCode, hv, updateOtpStatus, log2FAAttempt]
  · intro h
    have hv : verifyToken db email otp = false := by
      rw [← verifyOneTimeCode_fst userId email otp ip db]
      exact h
    simp [verifyOneTimeCode, hv, log2FAAttempt]
  · rw [verifyOneTimeCode_fst]
    cases hv : verifyToken db email otp <;>
      simp [verifyOneTimeCode, hv, log2FAAttempt, updateOtpStatus]

/-- Witness for C7's amended statement: redeeming the OLDER of the two
codes of `dbTwoOtps` succeeds (no recency restriction) and flips every
row of the email to used. -/
theorem verifyOneTimeCode_lookup_and_update_witness :
    ((verifyOneTimeCode 1 "u@x" "111111" none dbTwoOtps).1 = true ↔
      ∃ row ∈ dbTwoOtps.otps, row.otp = "111111" ∧ row.email = "u@x" ∧
        dbTwoOtps.now < row.expiresAt ∧ row.isUsed = false) ∧
    ((verifyOneTimeCode 1 "u@x" "111111" none dbTwoOtps).2.otps =
      dbTwoOtps.otps.map (fun row =>
        if row.email == "u@x" then { row with isUsed := true } else row)) :=
  ⟨(verifyOneTimeCode_lookup_and_update 1 "u@x" "111111" none dbTwoOtps).1,
   (verifyOneTimeCode_lookup_and_update 1 "u@x" "111111" none dbTwoOtps).2.1 (by decide)⟩

/-! ## C8 — fail-open device-block check -/

/-- C8: an error from the device-session lookup makes `isDeviceBlocked`
report not-blocked, and `login` behaves exactly as it does with an empty,
successful lookup — the error is never surfaced as a login failure. -/
theorem deviceCheck_fails_open (cmp : String → String → Bool) (db : Db)
    (email password : String) (reqInfo : Option DeviceInfo) (e : String) :
    isDeviceBlocked reqInfo (Except.error e) = false ∧
    login cmp db email password reqInfo (Except.error e) =
      login cmp db email password reqInfo (Except.ok []) := by
  have herr : isDeviceBlocked reqInfo (Except.error e) = false := by
    cases reqInfo <;> rfl
  have hok : isDeviceBlocked reqInfo (Except.ok []) = false := by
    cases reqInfo <;> rfl
  refine ⟨herr, ?_⟩
  cases hfind : getByEmail db email with
  | none => simp [login, hfind]
  | some user => simp [login, hfind, herr, hok]

/-! ## C9 — current device cannot be blocked or revoked -/

/-- C9: when the target session exists, belongs to the caller, and its
fingerprint (ip, browser, os) equals the caller's current fingerprint —
session id playing no part — `blockDevice` and `revokeDevice` both reject
with the cannot-act-on-current-device error and leave the store
unchanged. -/
theorem current_device_cannot_be_blocked_or_revoked (userId sessionId : Nat)
    (d : DeviceInfo) (db : Db) (session : DeviceSessionRow)
    (hfind : getSessionById db sessionId = some session)
    (hown : session.userId = userId)
    (hcur : isCurrentDevice d session = true) :
    blockDevice userId sessionId (some d) db =
      (Resp.error "Cannot block your current device" 400, db) ∧
    revokeDevice userId sessionId (some d) db =
      (Resp.error "Cannot revoke your current device session" 400, db) := by
  constructor
  · simp [blockDevice, hfind, hown, hcur]
  · simp [revokeDevice, hfind, hown, hcur]

/-- Witness for C9: `otherSession` of `dbSessions` (session id 9) carries
the caller's own fingerprint `dInfo0`, so user 1 can neither block nor
revoke it. -/
theorem current_device_cannot_be_blocked_or_revoked_witness :
    blockDevice 1 9 (some dInfo0) dbSessions =
      (Resp.error "Cannot block your current device" 400, dbSessions) ∧
    revokeDevice 1 9 (some dInfo0) dbSessions =
      (Resp.error "Cannot revoke your current device session" 400, dbSessions) :=
  current_device_cannot_be_blocked_or_revoked 1 9 dInfo0 dbSessions otherSession
    (by decide) (by decide) (by decide)

/-! ## C10 — one OTP table shared across purposes -/

/-- C10: the `otp` table carries no purpose tag, so (1) any unexpired,
unused row for an email satisfies the 2FA email verifier's lookup,
(2) an OTP minted by the password-reset flow for a (super_admin) user is
accepted by the 2FA email verifier, and (3) an OTP minted by the 2FA
send-code flow is accepted by the password-reset-with-OTP flow. -/
theorem otp_store_shared_across_purposes :
    (∀ (db : Db) (email otp : String) (row : OtpRow), row ∈ db.otps →
      row.email = email → row.otp = otp → row.isUsed = false →
      db.now < row.expiresAt → verifyToken db email otp = true) ∧
    (∀ (db : Db) (user : UserRow) (otp : String) (emailOk : Bool) (uid : Nat)
        (ip : Option String), getByEmail db user.email = some user →
      user.isDeleted = false → user.role = SUPER_ADMIN → 0 < db.otpTtl →
      (verifyOneTimeCode uid user.email otp ip
        (requestPasswordResetOTP db user.email otp emailOk).2).1 = true) ∧
    (∀ (db : Db) (user : UserRow) (otp : String) (emailOk : Bool)
        (hash : String → String) (newPassword : String),
      getByEmail db user.email = some user →
      user.isDeleted = false → user.role = SUPER_ADMIN → 0 < db.otpTtl →
      (resetPasswordWithOTP hash (sendOneTimeCode db user otp emailOk).2
          user.email otp newPassword).1 =
        Resp.okMessage "Password has been reset successfully. You can now login with your new password.") := by
  have hmemVerify : ∀ (db : Db) (email otp : String) (row : OtpRow), row ∈ db.otps →
      row.email = email → row.otp = otp → row.isUsed = false →
      db.now < row.expiresAt → verifyToken db email otp = true := by
    intro db email otp row hmem he ho hu hx
    rw [verifyToken_eq_true_iff]
    exact ⟨row, hmem, ho, he, hx, hu⟩
  refine ⟨hmemVerify, ?_, ?_⟩
  · intro db user otp emailOk uid ip hfind hdel hrole httl
    have hdb2 : (requestPasswordResetOTP db user.email otp emailOk).2 =
        insertOtp db user.email otp := by
      cases emailOk <;> simp [requestPasswordResetOTP, hfind, hdel, hrole]
    rw [hdb2, verifyOneTimeCode_fst]
    refine hmemVerify _ _ _
      { email := user.email, otp := otp, expiresAt := db.now + db.otpTtl, isUsed := false }
      ?_ rfl rfl rfl ?_
    · simp [insertOtp]
    · simp only [insertOtp]
      omega
  · intro db user otp emailOk hash newPassword hfind hdel hrole httl
    have hdb2 : (sendOneTimeCode db user otp emailOk).2 =
        insertOtp db user.email otp := by
      cases emailOk <;> simp [sendOneTimeCode]
    have hfind2 : getByEmail (insertOtp db user.email otp) user.email = some user := hfind
    have hvt : verifyToken (insertOtp db user.email otp) user.email otp = true := by
      refine hmemVerify _ _ _
        { email := user.email, otp := otp, expiresAt := db.now + db.otpTtl, isUsed := false }
        ?_ rfl rfl rfl ?_
      · simp [insertOtp]
      · simp only [insertOtp]
        omega
    rw [hdb2]
    simp [resetPasswordWithOTP, hfind2, hdel, hrole, hvt]

/-- Witness for C10: in `dbSuper`, a password-reset-minted OTP `"123456"`
passes the 2FA email verifier, and a 2FA-minted OTP `"654321"` drives a
successful password reset; and a raw unused row of `dbTwoOtps` satisfies
the shared lookup. -/
theorem otp_store_shared_across_purposes_witness :
    verifyToken dbTwoOtps "u@x" "111111" = true ∧
    (verifyOneTimeCode 1 superAdminUser.email "123456" none
      (requestPasswordResetOTP dbSuper superAdminUser.email "123456" true).2).1 = true ∧
    (resetPasswordWithOTP hash0
      (sendOneTimeCode dbSuper superAdminUser "654321" true).2
      superAdminUser.email "654321" "newpw").1 =
      Resp.okMessage "Password has been reset successfully. You can now login with your new password." :=
  ⟨otp_store_shared_across_purposes.1 dbTwoOtps "u@x" "111111"
      { email := "u@x", otp := "111111", expiresAt := 2000, isUsed := false }
      (by decide) (by decide) (by decide) (by decide) (by decide),
   otp_store_shared_across_purposes.2.1 dbSuper superAdminUser "123456" true 1 none
      (by decide) (by decide) (by decide) (by decide),
   otp_store_shared_across_purposes.2.2 dbSuper superAdminUser "654321" true hash0 "newpw"
      (by decide) (by decide) (by decide) (by decide)⟩

/-- C2 evidence: with a single unused backup code on file, the interleaving
that lets both concurrent requests take their unused-codes snapshot before
either marks the row used ends with BOTH requests returning `true`,
double-spending the code: the ledger records two successes and the single
code row is used once.  (`verifyBackupCode` ignores `useBackupCode`'s
return value, and `useBackupCode` itself is two separate queries, so the
check-unused-then-mark-used step is not atomic.) -/
theorem backupCode_race_double_spend :
    (raceRun cmp0 1 "c" none none [true, false, true, true, true, false, false, false]
        { p1 := BCLocal.start, p2 := BCLocal.start, db := dbOneCode }).p1 =
      BCLocal.done true ∧
    (raceRun cmp0 1 "c" none none [true, false, true, true, true, false, false, false]
        { p1 := BCLocal.start, p2 := BCLocal.start, db := dbOneCode }).p2 =
      BCLocal.done true ∧
    ((raceRun cmp0 1 "c" none none [true, false, true, true, true, false, false, false]
        { p1 := BCLocal.start, p2 := BCLocal.start, db := dbOneCode }).db.attempts.map
          AttemptRow.success) = [true, true] ∧
    ((raceRun cmp0 1 "c" none none [true, false, true, true, true, false, false, false]
        { p1 := BCLocal.start, p2 := BCLocal.start, db := dbOneCode }).db.backupCodes.map
          BackupCodeRow.isUsed) = [true] := by
  decide
